import Mathlib

/-!
# Macman backend: license activation and update resolution, verified

Shallow embedding of the decision core of the Macman backend
(license service, update service, key/version utilities), with
theorems checking the specification's claims against it.

Conventions of the embedding:
* the relational store is a pure value threaded through each operation
  (`List License` for the license aggregate, `UpdateDb` for releases
  and update history);
* JavaScript `Date` values are modelled as `Nat` timestamps and the
  current time is an explicit `now` parameter;
* JavaScript numbers that can only hold integers in this code base are
  modelled as `Int` (so that e.g. `deviceCount - 1` can go negative,
  exactly as in the source), `NaN` as `none` in an `Option Int`;
* a thrown `BadRequestError` / `NotFoundError` / `ConflictError`
  becomes an `AppError` value in an `Except`; operations that throw
  before writing return the unchanged store alongside the error.
-/

namespace Macman

/-! ## Errors (utils/errors.ts classes, by name) -/

/-- Error classifications of the backend, one constructor per error
class that the services throw (`BadRequestError`, `NotFoundError`,
`ConflictError`), carrying the human-readable message. -/
inductive AppError where
  | BadRequest (msg : String)
  | NotFound (msg : String)
  | Conflict (msg : String)
  deriving DecidableEq, Repr

/-! ## Key format (utils/licenseKey.ts) -/

/-- A character allowed in a key segment: the regex class `[A-Z0-9]`. -/
def isKeyChar (c : Char) : Bool :=
  c.isUpper || c.isDigit

/-- `str.split(sep)` on the character level: splitting an empty string
yields one empty piece, and every occurrence of the separator starts a
new piece, exactly as JavaScript's `String.prototype.split` with a
single-character separator. -/
def jsSplit (sep : Char) : List Char → List (List Char)
  | [] => [[]]
  | c :: cs =>
    if c = sep then
      [] :: jsSplit sep cs
    else
      match jsSplit sep cs with
      | [] => [[c]]
      | piece :: rest => (c :: piece) :: rest

/-- `isValidLicenseKeyFormat` from utils/licenseKey.ts: the key must
match `^MACMAN-[A-Z0-9]{5}-[A-Z0-9]{5}-[A-Z0-9]{5}$`.  Since the
segment class contains no dash, matching the regex is equivalent to
splitting on `-` and checking each piece. -/
def isValidLicenseKeyFormat (key : String) : Bool :=
  match jsSplit '-' key.toList with
  | [p0, p1, p2, p3] =>
    p0 == "MACMAN".toList &&
      [p1, p2, p3].all fun s => s.length == 5 && s.all isKeyChar
  | _ => false

/-! ## Version arithmetic (utils/licenseKey.ts) -/

/-- JavaScript `Number(s)` on a version component: the empty string
converts to `0`, a decimal digit string to its value, anything else to
`NaN` (modelled as `none`).  (Signs, whitespace and fractional forms
never occur in version components and are mapped to `none` here.) -/
def jsToNumber (s : List Char) : Option Int :=
  s.foldl
    (fun acc c =>
      match acc with
      | none => none
      | some n => if c.isDigit then some (n * 10 + (c.toNat - 48 : Int)) else none)
    (some 0)

/-- `versionToBuildNumber` from utils/licenseKey.ts:
`parts[0] * 10000 + (parts[1] || 0) * 100 + (parts[2] || 0)` over
`version.split('.').map(Number)`.  A missing (`undefined`) or `NaN`
minor/patch component is falsy in JavaScript, so `|| 0` turns it into
`0`; a `NaN` major component propagates to a `NaN` result (`none`). -/
def versionToBuildNumber (version : String) : Option Int :=
  let parts := (jsSplit '.' version.toList).map jsToNumber
  match parts.head? with
  | none => none
  | some none => none
  | some (some major) =>
    let minor : Int := match parts.get? 1 with
      | some (some n) => n
      | _ => 0
    let patch : Int := match parts.get? 2 with
      | some (some n) => n
      | _ => 0
    some (major * 10000 + minor * 100 + patch)

/-! ## License data model (prisma records, services/license.service.ts) -/

/-- A `LicenseActivation` row.  The activation is identified inside its
license by position; updates that the source addresses by `id` are
modelled as updates of the first list element matching the same
predicate the source used to find the row. -/
structure Activation where
  machineId : String
  deviceName : Option String
  osVersion : Option String
  appVersion : Option String
  isActive : Bool
  lastSeenAt : Nat
  deactivatedAt : Option Nat
  deriving DecidableEq, Repr

/-- A `License` row together with its owned activation rows.
`deviceCount` is the cached counter column, distinct from the number
of activation rows with `isActive = true`. -/
structure License where
  licenseKey : String
  email : Option String
  plan : String
  maxDevices : Int
  isActive : Bool
  expiresAt : Option Nat
  activatedAt : Option Nat
  deviceCount : Int
  activations : List Activation
  deriving DecidableEq, Repr

/-- The activation rows of a license with `isActive = true` (what the
source fetches through `include: activations: where: isActive: true`). -/
def License.activeActivations (l : License) : List Activation :=
  l.activations.filter (·.isActive)

/-- Number of active activation rows of a license. -/
def License.activeCount (l : License) : Nat :=
  l.activeActivations.length

/-- `ValidateLicenseDto` from types/index.ts. -/
structure ValidateLicenseDto where
  licenseKey : String
  machineId : String
  deviceName : Option String
  osVersion : Option String
  appVersion : Option String
  deriving DecidableEq, Repr

/-- The `errorType` values of `LicenseResponse` in types/index.ts. -/
inductive ErrorType where
  | invalid_key
  | machine_mismatch
  | max_devices_reached
  | inactive
  | expired
  deriving DecidableEq, Repr

/-- The `data` payload of a successful `LicenseResponse`. -/
structure LicenseData where
  licenseKey : String
  plan : String
  maxDevices : Int
  deviceCount : Int
  isActive : Bool
  deriving DecidableEq, Repr

/-- `LicenseResponse` from types/index.ts. -/
structure LicenseResponse where
  valid : Bool
  message : String
  data : Option LicenseData
  errorType : Option ErrorType
  purchaseUrl : Option String
  deriving DecidableEq, Repr

/-- Update the first element of a list satisfying `p` (a prisma
`update where id` on the row that a preceding `find` located). -/
def updateFirst (p : α → Bool) (f : α → α) : List α → List α
  | [] => []
  | x :: xs => if p x then f x :: xs else x :: updateFirst p f xs

/-- The expiry test of `validateLicense`:
`license.expiresAt && license.expiresAt < new Date()`. -/
def isPastExpiry (now : Nat) : Option Nat → Bool
  | some t => t < now
  | none => false

/-- A prisma field update from an optional DTO field: an `undefined`
value leaves the column unchanged, a present value overwrites it. -/
def setOpt (new : Option α) (old : Option α) : Option α :=
  match new with
  | some v => some v
  | none => old

/-- The activation-row update of the existing-activation branch of
`validateLicense`: refresh `lastSeenAt` and overwrite the version
fields when the request supplied them. -/
def refreshActivation (now : Nat) (d : ValidateLicenseDto) (a : Activation) :
    Activation :=
  { a with lastSeenAt := now,
           osVersion := setOpt d.osVersion a.osVersion,
           appVersion := setOpt d.appVersion a.appVersion }

/-- The license-row effect of the existing-activation branch: update
the located activation in place. -/
def refreshLicense (now : Nat) (d : ValidateLicenseDto) (l : License) : License :=
  { l with activations :=
      (updateFirst (fun a => a.machineId == d.machineId && a.isActive)
        (refreshActivation now d) l.activations) }

/-- The activation row created by the admission branch of
`validateLicense`. -/
def newActivation (now : Nat) (d : ValidateLicenseDto) : Activation :=
  { machineId := d.machineId, deviceName := d.deviceName,
    osVersion := d.osVersion, appVersion := d.appVersion,
    isActive := true, lastSeenAt := now, deactivatedAt := none }

/-- The license-row effect of the admission branch: append the new
activation, stamp `activatedAt`, write back the incremented count that
was observed before the write. -/
def admitLicense (now : Nat) (d : ValidateLicenseDto) (cnt : Nat) (l : License) :
    License :=
  { l with activations := l.activations ++ [newActivation now d],
           activatedAt := some now,
           deviceCount := (cnt : Int) + 1 }

/-- `LicenseService.validateLicense`.  The store is a list of licenses
(`findUnique where licenseKey` becomes `find?` on the key); the result
is the `LicenseResponse` together with the store after the call's
writes.  `now` stands for every `new Date()` taken during the call. -/
def validateLicense (now : Nat) (db : List License) (d : ValidateLicenseDto) :
    LicenseResponse × List License :=
  if !isValidLicenseKeyFormat d.licenseKey then
    ({ valid := false, message := "Invalid license key format",
       data := none, errorType := some .invalid_key, purchaseUrl := none }, db)
  else
    match db.find? (fun l => l.licenseKey == d.licenseKey) with
    | none =>
      ({ valid := false, message := "License key not found",
         data := none, errorType := some .invalid_key, purchaseUrl := none }, db)
    | some license =>
      -- `license.activations` below is the fetched, active-only list.
      let actives := license.activeActivations
      if !license.isActive then
        ({ valid := false, message := "This license has been deactivated",
           data := none, errorType := some .inactive, purchaseUrl := none }, db)
      else if isPastExpiry now license.expiresAt then
        ({ valid := false, message := "This license has expired",
           data := none, errorType := some .expired, purchaseUrl := none }, db)
      else
        match actives.find? (fun a => a.machineId == d.machineId && a.isActive) with
        | some _ =>
          let db' := updateFirst (fun l => l.licenseKey == d.licenseKey)
            (refreshLicense now d) db
          ({ valid := true, message := "License validated successfully",
             data := some { licenseKey := license.licenseKey, plan := license.plan,
                            maxDevices := license.maxDevices,
                            deviceCount := (actives.length : Int),
                            isActive := license.isActive },
             errorType := none, purchaseUrl := none }, db')
        | none =>
          let activeDeviceCount := (actives.filter (·.isActive)).length
          if (activeDeviceCount : Int) ≥ license.maxDevices then
            ({ valid := false,
               message := "Maximum number of devices (" ++ toString license.maxDevices ++
                 ") reached for this license",
               data := none, errorType := some .max_devices_reached,
               purchaseUrl := some "https://macman.dev/#pricing" }, db)
          else
            let db' := updateFirst (fun l => l.licenseKey == d.licenseKey)
              (admitLicense now d activeDeviceCount) db
            ({ valid := true, message := "License activated successfully",
               data := some { licenseKey := license.licenseKey, plan := license.plan,
                              maxDevices := license.maxDevices,
                              deviceCount := (activeDeviceCount : Int) + 1,
                              isActive := license.isActive },
               errorType := none, purchaseUrl := none }, db')

/-- `LicenseService.deactivateDevice`.  Throws (returns `.error`)
before any write, so the store comes back unchanged on error;
on success it deactivates the located activation row, stamps
`deactivatedAt`, and writes `deviceCount - 1` to the cached counter. -/
def deactivateDevice (now : Nat) (db : List License)
    (licenseKey machineId : String) : Except AppError Unit × List License :=
  match db.find? (fun l => l.licenseKey == licenseKey) with
  | none => (.error (.NotFound "License not found"), db)
  | some license =>
    match license.activations.find? (fun a => a.machineId == machineId && a.isActive) with
    | none => (.error (.NotFound "Device activation not found"), db)
    | some _ =>
      let db' := updateFirst (fun l => l.licenseKey == licenseKey)
        (fun l =>
          { l with
              activations :=
                (updateFirst (fun a => a.machineId == machineId && a.isActive)
                  (fun a => { a with isActive := false, deactivatedAt := some now })
                  l.activations),
              deviceCount := license.deviceCount - 1 }) db
      (.ok (), db')

/-! ## License creation (routes/license.routes.ts + license.service.ts) -/

/-- `CreateLicenseDto` from types/index.ts. -/
structure CreateLicenseDto where
  email : Option String
  plan : String
  maxDevices : Option Int
  deriving DecidableEq, Repr

/-- `getMaxDevicesForPlan`: the fixed `planMap` lookup with the
`|| 1` fallback for a plan outside the table. -/
def getMaxDevicesForPlan (plan : String) : Int :=
  if plan == "Individual" then 1
  else if plan == "2 Devices" then 2
  else if plan == "5 Devices" then 5
  else if plan == "Enterprise" then 999
  else 1

/-- The body checks of `createLicenseSchema` (routes/license.routes.ts)
that concern the plan and the device override: the plan must be one of
the four enumerated tiers, and `max_devices`, when present, a positive
integer.  (The schema's optional well-formedness check of the `email`
string is plumbing and elided here.) -/
def createLicenseSchemaCheck (d : CreateLicenseDto) : Bool :=
  (d.plan == "Individual" || d.plan == "2 Devices" ||
   d.plan == "5 Devices" || d.plan == "Enterprise") &&
  (match d.maxDevices with
   | some n => n > 0
   | none => true)

/-- The license row built by `LicenseService.createLicense` for a
freshly generated key: `maxDevices = data.maxDevices ||
getMaxDevicesForPlan(data.plan)` (`0` is falsy), `isActive = true`.
The `deviceCount := 0` and empty activation set are the prisma
defaults of the created row; the schema file is not part of the
sources here, so those two defaults are modelled from the spec
("always created active, with device count zero"). -/
def createLicenseService (key : String) (d : CreateLicenseDto) : License :=
  { licenseKey := key,
    email := d.email,
    plan := d.plan,
    maxDevices :=
      match d.maxDevices with
      | some n => if n ≠ 0 then n else getMaxDevicesForPlan d.plan
      | none => getMaxDevicesForPlan d.plan,
    isActive := true,
    expiresAt := none,
    activatedAt := none,
    deviceCount := 0,
    activations := [] }

/-- The admin create-license endpoint: body validation by
`createLicenseSchema` (a failing body is rejected with a
`BadRequestError` by the validation middleware), then
`LicenseService.createLicense`. -/
def createLicenseEndpoint (key : String) (d : CreateLicenseDto) :
    Except AppError License :=
  if !createLicenseSchemaCheck d then
    .error (.BadRequest "Validation failed")
  else
    .ok (createLicenseService key d)

/-! ## Update data model (services/update.service.ts) -/

/-- An `Update` (release) row. -/
structure Update where
  version : String
  buildNumber : Int
  releaseType : String
  filename : String
  fileSize : Int
  checksum : String
  releaseNotes : String
  forceUpdate : Bool
  isActive : Bool
  downloadCount : Int
  deriving DecidableEq, Repr

/-- An `UpdateHistory` row.  The `updateId` foreign key is represented
by the referenced release's (unique) version string. -/
structure UpdateHistory where
  updateVersion : String
  userId : String
  fromVersion : String
  toVersion : String
  updateType : String
  status : String
  platform : Option String
  appVersion : Option String
  deriving DecidableEq, Repr

/-- The update-side store: the release table and the history table. -/
structure UpdateDb where
  updates : List Update
  history : List UpdateHistory
  deriving DecidableEq, Repr

/-- `CreateUpdateDto` from types/index.ts. -/
structure CreateUpdateDto where
  version : String
  buildNumber : Int
  releaseType : String
  filename : String
  fileSize : Int
  checksum : String
  releaseNotes : String
  forceUpdate : Bool
  deriving DecidableEq, Repr

/-- `CheckUpdateDto` from types/index.ts. -/
structure CheckUpdateDto where
  version : String
  platform : String
  userId : String
  appVersion : Option String
  deriving DecidableEq, Repr

/-- The `latestVersion` payload of `UpdateResponse`. -/
structure LatestVersion where
  version : String
  buildNumber : Int
  releaseType : String
  downloadUrl : String
  fileSize : Int
  checksum : String
  releaseNotes : String
  forceUpdate : Bool
  deriving DecidableEq, Repr

/-- `UpdateResponse` from types/index.ts. -/
structure UpdateResponse where
  updateAvailable : Bool
  latestVersion : Option LatestVersion
  message : Option String
  deriving DecidableEq, Repr

/-- `buildNumber > currentBuildNumber` where the current build number
may be `NaN` (`none`) — every comparison against `NaN` is false. -/
def gtOpt (a : Int) : Option Int → Bool
  | some n => a > n
  | none => false

/-- Whether a release row qualifies for the `findFirst` query of
`checkForUpdate`: `isActive: true` and `buildNumber: gt: current`. -/
def qualifies (cur : Option Int) (u : Update) : Bool :=
  u.isActive && gtOpt u.buildNumber cur

/-- Fold step selecting a row of maximal build number (keeping the
earlier row on ties). -/
def pickLatest (best : Option Update) (u : Update) : Option Update :=
  match best with
  | none => some u
  | some b => if u.buildNumber > b.buildNumber then some u else best

/-- `findFirst where qualifies orderBy buildNumber desc`: among the
qualifying rows, one with the maximal build number (the first such row
in table order when build numbers tie). -/
def findLatestQualifying (updates : List Update) (cur : Option Int) : Option Update :=
  (updates.filter (qualifies cur)).foldl pickLatest none

/-- `UpdateService.checkForUpdate`: derive the client's build number,
query the latest qualifying active release; if none, report no update
and write nothing; otherwise record a `started` / `manual` history row
for this user and return the release's metadata with a constructed
download path. -/
def checkForUpdate (db : UpdateDb) (d : CheckUpdateDto) :
    UpdateResponse × UpdateDb :=
  let currentBuildNumber := versionToBuildNumber d.version
  match findLatestQualifying db.updates currentBuildNumber with
  | none =>
    ({ updateAvailable := false, latestVersion := none,
       message := some "You are running the latest version" }, db)
  | some latestUpdate =>
    let hist : UpdateHistory :=
      { updateVersion := latestUpdate.version,
        userId := d.userId,
        fromVersion := d.version,
        toVersion := latestUpdate.version,
        updateType := "manual",
        status := "started",
        platform := some d.platform,
        appVersion := d.appVersion }
    ({ updateAvailable := true,
       latestVersion := some
         { version := latestUpdate.version,
           buildNumber := latestUpdate.buildNumber,
           releaseType := latestUpdate.releaseType,
           downloadUrl := "/api/v2/updates/download/" ++ latestUpdate.version,
           fileSize := latestUpdate.fileSize,
           checksum := latestUpdate.checksum,
           releaseNotes := latestUpdate.releaseNotes,
           forceUpdate := latestUpdate.forceUpdate },
       message := none },
     { db with history := db.history ++ [hist] })

/-- `UpdateService.createUpdate`: reject an already-existing version
with a `BadRequestError` (thrown before any write, so the store comes
back unchanged), otherwise insert the release row with
`isActive := true`.  The `downloadCount := 0` of the new row is the
prisma column default; the schema file is not part of the sources
here, so that default is modelled from the spec ("persists as active
with a zero download counter"). -/
def createUpdate (db : UpdateDb) (d : CreateUpdateDto) :
    Except AppError Update × UpdateDb :=
  match db.updates.find? (fun u => u.version == d.version) with
  | some _ =>
    (.error (.BadRequest ("Update version " ++ d.version ++ " already exists")), db)
  | none =>
    let u : Update :=
      { version := d.version, buildNumber := d.buildNumber,
        releaseType := d.releaseType, filename := d.filename,
        fileSize := d.fileSize, checksum := d.checksum,
        releaseNotes := d.releaseNotes, forceUpdate := d.forceUpdate,
        isActive := true, downloadCount := 0 }
    (.ok u, { db with updates := db.updates ++ [u] })

/-! ## The admission race (validateLicense, steps 6-7)

`validateLicense` admits a new device by first *reading* the active
activation rows and comparing their number against `maxDevices`, and
then — in separate storage calls, with no transaction — *writing* the
new activation row and the incremented counter.  The two phases are
factored out below so that an interleaving of two concurrent requests
can be expressed: both requests read the same snapshot, then both
apply their writes. -/

/-- The read phase of device-slot admission: everything
`validateLicense` looks at before its first write on the new-device
path.  Returns the observed `activeDeviceCount` when the call reaches
the create-activation branch, and `none` when it terminates in any of
the earlier short-circuit outcomes (or in the existing-activation or
quota-full outcomes). -/
def admissionCheck (now : Nat) (db : List License) (d : ValidateLicenseDto) :
    Option Nat :=
  if !isValidLicenseKeyFormat d.licenseKey then none
  else
    match db.find? (fun l => l.licenseKey == d.licenseKey) with
    | none => none
    | some license =>
      let actives := license.activeActivations
      if !license.isActive then none
      else if isPastExpiry now license.expiresAt then none
      else
        match actives.find? (fun a => a.machineId == d.machineId && a.isActive) with
        | some _ => none
        | none =>
          let activeDeviceCount := (actives.filter (·.isActive)).length
          if (activeDeviceCount : Int) ≥ license.maxDevices then none
          else some activeDeviceCount

/-- The write phase of device-slot admission: the activation insert
and the license row update that `validateLicense` performs after an
admission decision taken on a (possibly stale) observed count. -/
def admissionWrite (now : Nat) (db : List License) (d : ValidateLicenseDto)
    (activeDeviceCount : Nat) : List License :=
  updateFirst (fun l => l.licenseKey == d.licenseKey)
    (admitLicense now d activeDeviceCount) db

/-! ## Sequential replay of validations (for the quota property) -/

/-- A validation request carrying only the key and the machine id. -/
def basicDto (key m : String) : ValidateLicenseDto :=
  { licenseKey := key, machineId := m, deviceName := none,
    osVersion := none, appVersion := none }

/-- Sequential replay: validate one machine id after another against
the evolving store, collecting every response. -/
def runValidations (now : Nat) (key : String) :
    List License → List String → List LicenseResponse × List License
  | db, [] => ([], db)
  | db, m :: ms =>
    let r := validateLicense now db (basicDto key m)
    let rest := runValidations now key r.2 ms
    (r.1 :: rest.1, rest.2)

/-- Invariant of the sequential replay: the store is the single
license — still active, unexpired, with its original key and quota —
holding exactly one active activation per already-validated machine. -/
def seqInv (l : License) (now : Nat) (done : List String)
    (db : List License) : Prop :=
  ∃ lc : License,
    db = [lc] ∧ lc.licenseKey = l.licenseKey ∧ lc.isActive = true ∧
    lc.expiresAt = none ∧ lc.maxDevices = l.maxDevices ∧
    lc.activations =
      done.map (fun mm => newActivation now (basicDto l.licenseKey mm))

/-! ## Concrete fixtures used by witnesses and counterexamples -/

/-- A key matching the `MACMAN-` format. -/
def sampleKey : String := "MACMAN-AAAAA-BBBBB-CCCCC"

/-- A single-device license with no activations yet. -/
def lRace : License :=
  { licenseKey := sampleKey, email := none, plan := "Individual",
    maxDevices := 1, isActive := true, expiresAt := none,
    activatedAt := none, deviceCount := 0, activations := [] }

/-- Validation request for machine `MACHINE-A` against `lRace`. -/
def dtoA : ValidateLicenseDto :=
  { licenseKey := sampleKey, machineId := "MACHINE-A",
    deviceName := none, osVersion := none, appVersion := none }

/-- Validation request for machine `MACHINE-B` against `lRace`. -/
def dtoB : ValidateLicenseDto :=
  { licenseKey := sampleKey, machineId := "MACHINE-B",
    deviceName := none, osVersion := none, appVersion := none }

/-- A two-device variant of `lRace`. -/
def lTwo : License := { lRace with maxDevices := 2 }

/-- An activation of machine `MACHINE-A`, currently active. -/
def actA : Activation :=
  { machineId := "MACHINE-A", deviceName := none, osVersion := none,
    appVersion := none, isActive := true, lastSeenAt := 0,
    deactivatedAt := none }

/-- `lRace` with machine `MACHINE-A` already bound (1 of 1 slots). -/
def lBound : License :=
  { lRace with activations := [actA], deviceCount := 1 }

/-- `lRace`, soft-deactivated. -/
def lInactive : License :=
  { lRace with isActive := false }

/-- `lRace`, expired at time 5 and with machine `MACHINE-A` bound. -/
def lExpired : License :=
  { lRace with expiresAt := some 5, activations := [actA], deviceCount := 1 }

/-- A validation request with a malformed key. -/
def dtoBad : ValidateLicenseDto :=
  { licenseKey := "bad-key", machineId := "MACHINE-A",
    deviceName := none, osVersion := none, appVersion := none }

/-- An existing release row, version `1.0.0`, build 10000. -/
def uExisting : Update :=
  { version := "1.0.0", buildNumber := 10000, releaseType := "normal",
    filename := "Macman-1.0.0.dmg", fileSize := 1000, checksum := "abc",
    releaseNotes := "first", forceUpdate := false, isActive := true,
    downloadCount := 0 }

/-- A create-release request reusing version `1.0.0`. -/
def dupDto : CreateUpdateDto :=
  { version := "1.0.0", buildNumber := 10001, releaseType := "normal",
    filename := "Macman-dup.dmg", fileSize := 2000, checksum := "def",
    releaseNotes := "dup", forceUpdate := false }

/-- An active release, version `1.0.9`, build 10009. -/
def u10009 : Update :=
  { version := "1.0.9", buildNumber := 10009, releaseType := "normal",
    filename := "Macman-1.0.9.dmg", fileSize := 1009, checksum := "c9",
    releaseNotes := "nine", forceUpdate := false, isActive := true,
    downloadCount := 0 }

/-- An active release, version `1.0.10`, build 10010. -/
def u10010 : Update :=
  { version := "1.0.10", buildNumber := 10010, releaseType := "normal",
    filename := "Macman-1.0.10.dmg", fileSize := 1010, checksum := "c10",
    releaseNotes := "ten", forceUpdate := false, isActive := true,
    downloadCount := 0 }

/-- An update-check request from version `1.0.0` by user `u1`. -/
def checkDto : CheckUpdateDto :=
  { version := "1.0.0", platform := "darwin", userId := "u1",
    appVersion := some "1.0.0" }

/-- Classifier for the error branch of an `Except AppError`: does it
carry a `Conflict`? -/
def isConflictError : Except AppError α → Bool
  | .error (.Conflict _) => true
  | _ => false

/-! ## Helper lemmas about `updateFirst` and `find?` -/

theorem updateFirst_cons (p : α → Bool) (f : α → α) (x : α) (xs : List α) :
    updateFirst p f (x :: xs) =
      if p x then f x :: xs else x :: updateFirst p f xs := rfl

theorem find?_updateFirst (p : α → Bool) (f : α → α)
    (hpf : ∀ x, p x = true → p (f x) = true) :
    ∀ (l : List α) (a : α), l.find? p = some a →
      (updateFirst p f l).find? p = some (f a) := by
  intro l
  induction l with
  | nil => intro a h; simp [List.find?] at h
  | cons x xs ih =>
    intro a h
    by_cases hx : p x = true
    · rw [List.find?_cons_of_pos _ hx] at h
      cases h
      rw [updateFirst_cons, if_pos hx, List.find?_cons_of_pos _ (hpf _ hx)]
    · have hx' : ¬ p x := by simpa using hx
      rw [List.find?_cons_of_neg _ hx'] at h
      rw [updateFirst_cons, if_neg hx', List.find?_cons_of_neg _ hx']
      exact ih a h

theorem updateFirst_forall₂ (R : α → α → Prop) (p : α → Bool) (f : α → α)
    (hf : ∀ x, R x (f x)) (hrefl : ∀ x, R x x) :
    ∀ l : List α, List.Forall₂ R l (updateFirst p f l) := by
  intro l
  induction l with
  | nil => exact List.Forall₂.nil
  | cons x xs ih =>
    rw [updateFirst_cons]
    by_cases hx : p x = true
    · rw [if_pos hx]
      exact List.Forall₂.cons (hf x) (List.forall₂_same.mpr fun y _ => hrefl y)
    · rw [if_neg (by simpa using hx)]
      exact List.Forall₂.cons (hrefl x) ih

theorem forall₂_filter_length (q : α → Bool) (R : α → α → Prop)
    (hq : ∀ x y, R x y → q y = q x) :
    ∀ {l₁ l₂ : List α}, List.Forall₂ R l₁ l₂ →
      (l₂.filter q).length = (l₁.filter q).length := by
  intro l₁ l₂ h
  induction h with
  | nil => rfl
  | @cons x y l₁ l₂ hR _ ih =>
    rw [List.filter_cons, List.filter_cons, hq x y hR]
    cases q x <;> simp [ih]

theorem updateFirst_filter_length_deactivate (p q : α → Bool) (f : α → α)
    (hpq : ∀ x, p x = true → q x = true)
    (hqf : ∀ x, q (f x) = false) :
    ∀ (l : List α) (a : α), l.find? p = some a →
      ((updateFirst p f l).filter q).length + 1 = (l.filter q).length := by
  intro l
  induction l with
  | nil => intro a h; simp [List.find?] at h
  | cons x xs ih =>
    intro a h
    by_cases hx : p x = true
    · rw [List.find?_cons_of_pos _ hx] at h
      rw [updateFirst_cons, if_pos hx, List.filter_cons, List.filter_cons,
        hqf x, hpq x hx]
      simp
    · have hx' : ¬ p x := by simpa using hx
      rw [List.find?_cons_of_neg _ hx'] at h
      rw [updateFirst_cons, if_neg hx', List.filter_cons, List.filter_cons]
      cases hqx : q x <;> simp [ih a h]

theorem activeActivations_isActive (l : License) :
    ∀ a ∈ l.activeActivations, a.isActive = true := by
  intro a ha
  exact (List.mem_filter.mp ha).2

theorem activeActivations_filter (l : License) :
    l.activeActivations.filter (fun a => a.isActive) = l.activeActivations :=
  List.filter_eq_self.mpr fun a ha => activeActivations_isActive l a ha


/-! ## Claim theorems -/

/-- C9: `versionToBuildNumber` maps a version string to
`major*10000 + minor*100 + patch`, with missing components treated as
0; in particular `"1.0.8" ↦ 10008` and `"1.2.0" ↦ 10200`, and two
versions with equal weighted scores but different textual form (such
as `"1.2.0"` and `"1.1.100"`) yield equal build numbers. -/
theorem C9_versionToBuildNumber :
    versionToBuildNumber "1.0.8" = some 10008 ∧
    versionToBuildNumber "1.2.0" = some 10200 ∧
    (∀ (v : String) (n0 n1 n2 : Int),
      (jsSplit '.' v.toList).map jsToNumber = [some n0, some n1, some n2] →
      versionToBuildNumber v = some (n0 * 10000 + n1 * 100 + n2)) ∧
    (∀ (v : String) (n0 n1 : Int),
      (jsSplit '.' v.toList).map jsToNumber = [some n0, some n1] →
      versionToBuildNumber v = some (n0 * 10000 + n1 * 100)) ∧
    (∀ (v : String) (n0 : Int),
      (jsSplit '.' v.toList).map jsToNumber = [some n0] →
      versionToBuildNumber v = some (n0 * 10000)) ∧
    (versionToBuildNumber "1.2.0" = versionToBuildNumber "1.1.100" ∧
      "1.2.0" ≠ "1.1.100") := by
  refine ⟨by decide, by decide, ?_, ?_, ?_, by decide, by decide⟩
  · intro v n0 n1 n2 h
    unfold versionToBuildNumber
    rw [h]
    rfl
  · intro v n0 n1 h
    unfold versionToBuildNumber
    rw [h]
    simp
  · intro v n0 h
    unfold versionToBuildNumber
    rw [h]
    simp

/-- C9 witness: the general component formula applied at `"1.0.8"`,
`"1.2"` and `"7"`. -/
theorem C9_versionToBuildNumber_witness :
    versionToBuildNumber "1.0.8" = some (1 * 10000 + 0 * 100 + 8) ∧
    versionToBuildNumber "1.2" = some (1 * 10000 + 2 * 100) ∧
    versionToBuildNumber "7" = some (7 * 10000) :=
  ⟨C9_versionToBuildNumber.2.2.1 "1.0.8" 1 0 8 (by decide),
   C9_versionToBuildNumber.2.2.2.1 "1.2" 1 2 (by decide),
   C9_versionToBuildNumber.2.2.2.2.1 "7" 7 (by decide)⟩

/-- C10: two `checkForUpdate` requests identical except for the
`platform` field produce identical responses — release selection does
not depend on the reported platform. -/
theorem C10_platform_irrelevant (db : UpdateDb) (version userId : String)
    (appVersion : Option String) (p₁ p₂ : String) :
    (checkForUpdate db
        { version := version, platform := p₁, userId := userId,
          appVersion := appVersion }).1 =
    (checkForUpdate db
        { version := version, platform := p₂, userId := userId,
          appVersion := appVersion }).1 := by
  unfold checkForUpdate
  cases h : findLatestQualifying db.updates (versionToBuildNumber version) <;>
    simp [h]


/-- C6 counterexample: creating a release whose version string already
exists fails with the `BadRequest` classification, not with a
`Conflict` classification as claimed. -/
theorem C6_counterexample :
    (createUpdate ⟨[uExisting], []⟩ dupDto).1 =
      .error (.BadRequest "Update version 1.0.0 already exists") ∧
    isConflictError (createUpdate ⟨[uExisting], []⟩ dupDto).1 = false ∧
    (createUpdate ⟨[uExisting], []⟩ dupDto).2 = ⟨[uExisting], []⟩ :=
  ⟨by rfl, by rfl, by rfl⟩

/-- C6 (amended): CreateRelease with a version string that already
exists fails with a BadRequest classification ("already exists") and
does not mutate the store; with a fresh version string it persists the
release as active with a zero download counter. -/
theorem C6_createUpdate (db : UpdateDb) (d : CreateUpdateDto) :
    (∀ u ∈ db.updates, u.version = d.version →
      createUpdate db d =
        (.error (.BadRequest ("Update version " ++ d.version ++ " already exists")),
         db)) ∧
    ((∀ u ∈ db.updates, u.version ≠ d.version) →
      ∃ row : Update,
        createUpdate db d = (.ok row, ⟨db.updates ++ [row], db.history⟩) ∧
        row.isActive = true ∧ row.downloadCount = 0 ∧
        row.version = d.version ∧ row.buildNumber = d.buildNumber) := by
  constructor
  · intro u hu hv
    have hs : (db.updates.find? (fun u => u.version == d.version)).isSome :=
      List.find?_isSome.mpr ⟨u, hu, by simp [hv]⟩
    obtain ⟨u', hf⟩ := Option.isSome_iff_exists.mp hs
    unfold createUpdate
    rw [hf]
  · intro hall
    have hf : db.updates.find? (fun u => u.version == d.version) = none :=
      List.find?_eq_none.mpr fun x hx => by simp [hall x hx]
    unfold createUpdate
    rw [hf]
    exact ⟨_, rfl, rfl, rfl, rfl, rfl⟩

/-- C6 witness: the amended claim at a concrete store — duplicate
version `1.0.0` rejected with BadRequest and the store unchanged;
the same request against an empty store persisted as an active row
with a zero download counter. -/
theorem C6_createUpdate_witness :
    (createUpdate ⟨[uExisting], []⟩ dupDto =
      (.error (.BadRequest ("Update version " ++ dupDto.version ++ " already exists")),
       ⟨[uExisting], []⟩)) ∧
    (∃ row : Update,
      createUpdate ⟨[], []⟩ dupDto = (.ok row, ⟨[] ++ [row], []⟩) ∧
      row.isActive = true ∧ row.downloadCount = 0 ∧
      row.version = dupDto.version ∧ row.buildNumber = dupDto.buildNumber) :=
  ⟨(C6_createUpdate ⟨[uExisting], []⟩ dupDto).1 uExisting (by decide) (by decide),
   (C6_createUpdate ⟨[], []⟩ dupDto).2 (by intro u hu; simp at hu)⟩

/-- C7: the admin create-license operation assigns `maxDevices` from
the override when provided, otherwise from the fixed plan table
(Individual→1, 2 Devices→2, 5 Devices→5, Enterprise→999); the license
is created active with device count zero; and every plan string
outside the four tiers is rejected before creation (the InvalidPlan
outcome, realised as the schema's BadRequest rejection). -/
theorem C7_createLicense :
    (getMaxDevicesForPlan "Individual" = 1 ∧ getMaxDevicesForPlan "2 Devices" = 2 ∧
     getMaxDevicesForPlan "5 Devices" = 5 ∧ getMaxDevicesForPlan "Enterprise" = 999) ∧
    (∀ (key : String) (d : CreateLicenseDto),
      d.plan ≠ "Individual" → d.plan ≠ "2 Devices" → d.plan ≠ "5 Devices" →
      d.plan ≠ "Enterprise" →
      createLicenseEndpoint key d = .error (.BadRequest "Validation failed")) ∧
    (∀ (key : String) (d : CreateLicenseDto),
      createLicenseSchemaCheck d = true →
      createLicenseEndpoint key d = .ok (createLicenseService key d) ∧
      (createLicenseService key d).isActive = true ∧
      (createLicenseService key d).deviceCount = 0 ∧
      (createLicenseService key d).activations = [] ∧
      (createLicenseService key d).maxDevices =
        (match d.maxDevices with
         | some n => n
         | none => getMaxDevicesForPlan d.plan)) := by
  refine ⟨by decide, ?_, ?_⟩
  · intro key d h1 h2 h3 h4
    have hc : createLicenseSchemaCheck d = false := by
      unfold createLicenseSchemaCheck
      simp [h1, h2, h3, h4]
    unfold createLicenseEndpoint
    rw [hc]
    rfl
  · intro key d hs
    have hok : createLicenseEndpoint key d = .ok (createLicenseService key d) := by
      unfold createLicenseEndpoint
      rw [hs]
      rfl
    refine ⟨hok, rfl, rfl, rfl, ?_⟩
    unfold createLicenseService
    cases hd : d.maxDevices with
    | none => rfl
    | some n =>
      have hn : 0 < n := by
        unfold createLicenseSchemaCheck at hs
        rw [hd] at hs
        simp [Bool.and_eq_true] at hs
        exact hs.2
      simp only []
      rw [if_pos (by omega : n ≠ 0)]

/-- C7 witness: the plan string `Pro` is rejected; a `2 Devices`
request with no override creates an active license with device count
zero and the table's quota. -/
theorem C7_createLicense_witness :
    (createLicenseEndpoint sampleKey ⟨none, "Pro", none⟩ =
      .error (.BadRequest "Validation failed")) ∧
    (createLicenseEndpoint sampleKey ⟨none, "2 Devices", none⟩ =
        .ok (createLicenseService sampleKey ⟨none, "2 Devices", none⟩) ∧
      (createLicenseService sampleKey ⟨none, "2 Devices", none⟩).isActive = true ∧
      (createLicenseService sampleKey ⟨none, "2 Devices", none⟩).deviceCount = 0 ∧
      (createLicenseService sampleKey ⟨none, "2 Devices", none⟩).activations = [] ∧
      (createLicenseService sampleKey ⟨none, "2 Devices", none⟩).maxDevices =
        (match (none : Option Int) with
         | some n => n
         | none => getMaxDevicesForPlan "2 Devices")) :=
  ⟨C7_createLicense.2.1 sampleKey ⟨none, "Pro", none⟩
      (by decide) (by decide) (by decide) (by decide),
   C7_createLicense.2.2 sampleKey ⟨none, "2 Devices", none⟩ (by decide)⟩


/-! ## Properties of `findLatestQualifying` -/

theorem foldl_pickLatest_some :
    ∀ (l : List Update) (b : Update),
      ∃ u, l.foldl pickLatest (some b) = some u ∧ (u = b ∨ u ∈ l) ∧
        b.buildNumber ≤ u.buildNumber ∧ ∀ v ∈ l, v.buildNumber ≤ u.buildNumber := by
  intro l
  induction l with
  | nil =>
    intro b
    exact ⟨b, rfl, Or.inl rfl, le_refl _, by simp⟩
  | cons x xs ih =>
    intro b
    by_cases hx : x.buildNumber > b.buildNumber
    · obtain ⟨u, hu, hmem, hle, hall⟩ := ih x
      refine ⟨u, ?_, ?_, ?_, ?_⟩
      · simpa [List.foldl_cons, pickLatest, hx] using hu
      · rcases hmem with h | h
        · exact Or.inr (by simp [h])
        · exact Or.inr (by simp [h])
      · exact le_trans (le_of_lt hx) hle
      · intro v hv
        rcases List.mem_cons.mp hv with h | h
        · subst h; exact hle
        · exact hall v h
    · obtain ⟨u, hu, hmem, hle, hall⟩ := ih b
      refine ⟨u, ?_, ?_, hle, ?_⟩
      · simpa [List.foldl_cons, pickLatest, hx] using hu
      · rcases hmem with h | h
        · exact Or.inl h
        · exact Or.inr (by simp [h])
      · intro v hv
        rcases List.mem_cons.mp hv with h | h
        · subst h; exact le_trans (le_of_not_lt hx) hle
        · exact hall v h

theorem findLatestQualifying_eq_none (updates : List Update) (cur : Option Int)
    (h : ∀ u ∈ updates, qualifies cur u = false) :
    findLatestQualifying updates cur = none := by
  unfold findLatestQualifying
  have : updates.filter (qualifies cur) = [] :=
    List.filter_eq_nil_iff.mpr fun a ha => by simp [h a ha]
  rw [this]
  rfl

theorem findLatestQualifying_spec (updates : List Update) (cur : Option Int)
    (u : Update) (h : findLatestQualifying updates cur = some u) :
    u ∈ updates ∧ qualifies cur u = true ∧
      ∀ v ∈ updates, qualifies cur v = true → v.buildNumber ≤ u.buildNumber := by
  unfold findLatestQualifying at h
  cases hf : updates.filter (qualifies cur) with
  | nil => rw [hf] at h; simp [List.foldl_nil] at h
  | cons x xs =>
    rw [hf, List.foldl_cons] at h
    have hx : pickLatest none x = some x := rfl
    rw [hx] at h
    obtain ⟨w, hw, hmem, hle, hall⟩ := foldl_pickLatest_some xs x
    rw [hw] at h
    cases h
    have humem : u ∈ updates.filter (qualifies cur) := by
      rw [hf]
      rcases hmem with hh | hh
      · simp [hh]
      · simp [hh]
    constructor
    · exact (List.mem_filter.mp humem).1
    constructor
    · exact (List.mem_filter.mp humem).2
    · intro v hv hq
      have hvf : v ∈ updates.filter (qualifies cur) := List.mem_filter.mpr ⟨hv, hq⟩
      rw [hf] at hvf
      rcases List.mem_cons.mp hvf with hh | hh
      · subst hh; exact hle
      · exact hall v hh

/-- C5: CheckForUpdate considers only active releases with build
number strictly above the one derived from the reported version; with
no qualifying release it reports no update and writes nothing;
otherwise it picks a qualifying release of maximal build number,
appends a `started` UpdateHistory record for this user/version pair,
and returns that release's version, build number, release type,
download path, file size, checksum, release notes and force flag. -/
theorem C5_checkForUpdate :
    (∀ (db : UpdateDb) (d : CheckUpdateDto),
      (∀ u ∈ db.updates, qualifies (versionToBuildNumber d.version) u = false) →
      (checkForUpdate db d).1.updateAvailable = false ∧
      (checkForUpdate db d).2 = db) ∧
    (∀ (db : UpdateDb) (d : CheckUpdateDto) (u : Update),
      findLatestQualifying db.updates (versionToBuildNumber d.version) = some u →
      (u ∈ db.updates ∧ u.isActive = true ∧
        gtOpt u.buildNumber (versionToBuildNumber d.version) = true) ∧
      (∀ v ∈ db.updates, qualifies (versionToBuildNumber d.version) v = true →
        v.buildNumber ≤ u.buildNumber) ∧
      (checkForUpdate db d).1 =
        { updateAvailable := true,
          latestVersion := some
            { version := u.version, buildNumber := u.buildNumber,
              releaseType := u.releaseType,
              downloadUrl := "/api/v2/updates/download/" ++ u.version,
              fileSize := u.fileSize, checksum := u.checksum,
              releaseNotes := u.releaseNotes, forceUpdate := u.forceUpdate },
          message := none } ∧
      (checkForUpdate db d).2 =
        ⟨db.updates,
         db.history ++
           [{ updateVersion := u.version, userId := d.userId,
              fromVersion := d.version, toVersion := u.version,
              updateType := "manual", status := "started",
              platform := some d.platform, appVersion := d.appVersion }]⟩) := by
  constructor
  · intro db d h
    have hn := findLatestQualifying_eq_none db.updates (versionToBuildNumber d.version) h
    simp only [checkForUpdate]
    rw [hn]
    exact ⟨rfl, rfl⟩
  · intro db d u h
    obtain ⟨hmem, hq, hmax⟩ :=
      findLatestQualifying_spec db.updates (versionToBuildNumber d.version) u h
    unfold qualifies at hq
    rw [Bool.and_eq_true] at hq
    refine ⟨⟨hmem, hq.1, hq.2⟩, hmax, ?_, ?_⟩
    · simp only [checkForUpdate]
      rw [h]
    · simp only [checkForUpdate]
      rw [h]

/-- C5 witness: from `1.0.0`, with active releases of builds 10009 and
10010, the response selects build 10010 and records a `started`
history row; with an empty release table there is no update and no
write. -/
theorem C5_checkForUpdate_witness :
    ((checkForUpdate ⟨[], []⟩ checkDto).1.updateAvailable = false ∧
      (checkForUpdate ⟨[], []⟩ checkDto).2 = ⟨[], []⟩) ∧
    ((u10010 ∈ [u10009, u10010] ∧ u10010.isActive = true ∧
        gtOpt u10010.buildNumber (versionToBuildNumber checkDto.version) = true) ∧
      (∀ v ∈ [u10009, u10010],
        qualifies (versionToBuildNumber checkDto.version) v = true →
        v.buildNumber ≤ u10010.buildNumber) ∧
      (checkForUpdate ⟨[u10009, u10010], []⟩ checkDto).1 =
        { updateAvailable := true,
          latestVersion := some
            { version := u10010.version, buildNumber := u10010.buildNumber,
              releaseType := u10010.releaseType,
              downloadUrl := "/api/v2/updates/download/" ++ u10010.version,
              fileSize := u10010.fileSize, checksum := u10010.checksum,
              releaseNotes := u10010.releaseNotes,
              forceUpdate := u10010.forceUpdate },
          message := none } ∧
      (checkForUpdate ⟨[u10009, u10010], []⟩ checkDto).2 =
        ⟨[u10009, u10010],
         [] ++
           [{ updateVersion := u10010.version, userId := checkDto.userId,
              fromVersion := checkDto.version, toVersion := u10010.version,
              updateType := "manual", status := "started",
              platform := some checkDto.platform,
              appVersion := checkDto.appVersion }]⟩) :=
  ⟨C5_checkForUpdate.1 ⟨[], []⟩ checkDto (by intro u hu; simp at hu),
   C5_checkForUpdate.2 ⟨[u10009, u10010], []⟩ checkDto u10010 (by decide)⟩


/-- C1: `validateLicense` evaluates its decision steps in exactly the
documented order, each short-circuiting: malformed key → `invalid_key`
with no storage lookup (the response is independent of the store and
the store unchanged); unknown key → `invalid_key`; inactive license →
`inactive`; past expiration → `expired` (even for an already-bound
machine); existing active activation → success with no slot consumed;
full quota → `max_devices_reached`; otherwise a new activation is
created and success returned. -/
theorem C1_validate_order :
    (∀ (now : Nat) (db db₂ : List License) (d : ValidateLicenseDto),
      isValidLicenseKeyFormat d.licenseKey = false →
      (validateLicense now db d).1.errorType = some .invalid_key ∧
      (validateLicense now db d).1.valid = false ∧
      (validateLicense now db d).2 = db ∧
      (validateLicense now db d).1 = (validateLicense now db₂ d).1) ∧
    (∀ (now : Nat) (db : List License) (d : ValidateLicenseDto),
      isValidLicenseKeyFormat d.licenseKey = true →
      db.find? (fun l => l.licenseKey == d.licenseKey) = none →
      (validateLicense now db d).1.errorType = some .invalid_key ∧
      (validateLicense now db d).1.valid = false ∧
      (validateLicense now db d).2 = db) ∧
    (∀ (now : Nat) (db : List License) (d : ValidateLicenseDto) (l : License),
      isValidLicenseKeyFormat d.licenseKey = true →
      db.find? (fun l => l.licenseKey == d.licenseKey) = some l →
      l.isActive = false →
      (validateLicense now db d).1.errorType = some .inactive ∧
      (validateLicense now db d).1.valid = false ∧
      (validateLicense now db d).2 = db) ∧
    (∀ (now : Nat) (db : List License) (d : ValidateLicenseDto) (l : License)
        (t : Nat),
      isValidLicenseKeyFormat d.licenseKey = true →
      db.find? (fun l => l.licenseKey == d.licenseKey) = some l →
      l.isActive = true → l.expiresAt = some t → t < now →
      (validateLicense now db d).1.errorType = some .expired ∧
      (validateLicense now db d).1.valid = false ∧
      (validateLicense now db d).2 = db) ∧
    (∀ (now : Nat) (db : List License) (d : ValidateLicenseDto) (l : License),
      isValidLicenseKeyFormat d.licenseKey = true →
      db.find? (fun l => l.licenseKey == d.licenseKey) = some l →
      l.isActive = true → isPastExpiry now l.expiresAt = false →
      (∃ a ∈ l.activeActivations, a.machineId = d.machineId) →
      (validateLicense now db d).1.valid = true ∧
      ∃ l', ((validateLicense now db d).2).find?
          (fun x => x.licenseKey == d.licenseKey) = some l' ∧
        l'.activeCount = l.activeCount) ∧
    (∀ (now : Nat) (db : List License) (d : ValidateLicenseDto) (l : License),
      isValidLicenseKeyFormat d.licenseKey = true →
      db.find? (fun l => l.licenseKey == d.licenseKey) = some l →
      l.isActive = true → isPastExpiry now l.expiresAt = false →
      (∀ a ∈ l.activeActivations, a.machineId ≠ d.machineId) →
      l.maxDevices ≤ (l.activeCount : Int) →
      (validateLicense now db d).1.errorType = some .max_devices_reached ∧
      (validateLicense now db d).1.valid = false ∧
      (validateLicense now db d).1.purchaseUrl = some "https://macman.dev/#pricing" ∧
      (validateLicense now db d).2 = db) ∧
    (∀ (now : Nat) (db : List License) (d : ValidateLicenseDto) (l : License),
      isValidLicenseKeyFormat d.licenseKey = true →
      db.find? (fun l => l.licenseKey == d.licenseKey) = some l →
      l.isActive = true → isPastExpiry now l.expiresAt = false →
      (∀ a ∈ l.activeActivations, a.machineId ≠ d.machineId) →
      (l.activeCount : Int) < l.maxDevices →
      (validateLicense now db d).1.valid = true ∧
      ∃ l', ((validateLicense now db d).2).find?
          (fun x => x.licenseKey == d.licenseKey) = some l' ∧
        l'.activeCount = l.activeCount + 1) := by
  refine ⟨?_, ?_, ?_, ?_, ?_, ?_, ?_⟩
  · intro now db db₂ d hk
    simp [validateLicense, hk]
  · intro now db d hk hf
    simp [validateLicense, hk, hf]
  · intro now db d l hk hf hia
    simp [validateLicense, hk, hf, hia]
  · intro now db d l t hk hf hact hexp ht
    have hpe : isPastExpiry now l.expiresAt = true := by
      simp [isPastExpiry, hexp, ht]
    simp [validateLicense, hk, hf, hact, hpe]
  · intro now db d l hk hf hact hexp hbound
    obtain ⟨a, ha, ham⟩ := hbound
    have haact := activeActivations_isActive l a ha
    have hsome : (l.activeActivations.find?
        (fun a => a.machineId == d.machineId && a.isActive)).isSome :=
      List.find?_isSome.mpr ⟨a, ha, by simp [ham, haact]⟩
    obtain ⟨a', hfa⟩ := Option.isSome_iff_exists.mp hsome
    have hred1 : (validateLicense now db d).1.valid = true := by
      simp [validateLicense, hk, hf, hact, hexp, hfa]
    have hred2 : (validateLicense now db d).2 =
        updateFirst (fun x => x.licenseKey == d.licenseKey)
          (refreshLicense now d) db := by
      simp [validateLicense, hk, hf, hact, hexp, hfa]
    refine ⟨hred1, ?_⟩
    rw [hred2]
    refine ⟨refreshLicense now d l,
      find?_updateFirst (fun x => x.licenseKey == d.licenseKey)
        (refreshLicense now d) (fun x hx => hx) db l hf, ?_⟩
    have h₂ := updateFirst_forall₂
      (fun (x y : Activation) => y.isActive = x.isActive)
      (fun a => a.machineId == d.machineId && a.isActive)
      (refreshActivation now d) (fun x => rfl) (fun x => rfl) l.activations
    have h₃ := forall₂_filter_length (fun (a : Activation) => a.isActive)
      (fun (x y : Activation) => y.isActive = x.isActive) (fun x y hxy => hxy) h₂
    simpa [License.activeCount, License.activeActivations, refreshLicense] using h₃
  · intro now db d l hk hf hact hexp hnone hquota
    have hfa : l.activeActivations.find?
        (fun a => a.machineId == d.machineId && a.isActive) = none :=
      List.find?_eq_none.mpr fun a ha => by simp [hnone a ha]
    have hcount : ((l.activeActivations.filter (fun a => a.isActive)).length : Int) =
        (l.activeCount : Int) := by
      rw [activeActivations_filter]
      rfl
    have hge : ((l.activeActivations.filter (fun a => a.isActive)).length : Int) ≥
        l.maxDevices := by
      rw [hcount]; exact hquota
    simp [validateLicense, hk, hf, hact, hexp, hfa, hge]
  · intro now db d l hk hf hact hexp hnone hlt
    have hfa : l.activeActivations.find?
        (fun a => a.machineId == d.machineId && a.isActive) = none :=
      List.find?_eq_none.mpr fun a ha => by simp [hnone a ha]
    have hcount : ((l.activeActivations.filter (fun a => a.isActive)).length : Int) =
        (l.activeCount : Int) := by
      rw [activeActivations_filter]
      rfl
    have hn : ¬ (((l.activeActivations.filter (fun a => a.isActive)).length : Int) ≥
        l.maxDevices) := by
      rw [hcount]; omega
    have hred1 : (validateLicense now db d).1.valid = true := by
      simp [validateLicense, hk, hf, hact, hexp, hfa, hn]
    have hred2 : (validateLicense now db d).2 =
        updateFirst (fun x => x.licenseKey == d.licenseKey)
          (admitLicense now d
            ((l.activeActivations.filter (fun a => a.isActive)).length) ) db := by
      simp [validateLicense, hk, hf, hact, hexp, hfa, hn]
    refine ⟨hred1, ?_⟩
    rw [hred2]
    refine ⟨admitLicense now d _ l,
      find?_updateFirst (fun x => x.licenseKey == d.licenseKey)
        (admitLicense now d _) (fun x hx => hx) db l hf, ?_⟩
    simp [License.activeCount, License.activeActivations, admitLicense,
      newActivation, List.filter_append]


/-- C1 witness: each decision step exercised at a concrete store —
malformed key, unknown key, inactive license, expired license with the
machine already bound, re-validation of a bound machine, full quota,
and a fresh admission. -/
theorem C1_validate_order_witness :
    ((validateLicense 10 [lRace] dtoBad).1.errorType = some .invalid_key ∧
     (validateLicense 10 [lRace] dtoBad).1.valid = false ∧
     (validateLicense 10 [lRace] dtoBad).2 = [lRace] ∧
     (validateLicense 10 [lRace] dtoBad).1 = (validateLicense 10 [] dtoBad).1) ∧
    ((validateLicense 10 [] dtoA).1.errorType = some .invalid_key ∧
     (validateLicense 10 [] dtoA).1.valid = false ∧
     (validateLicense 10 [] dtoA).2 = []) ∧
    ((validateLicense 10 [lInactive] dtoA).1.errorType = some .inactive ∧
     (validateLicense 10 [lInactive] dtoA).1.valid = false ∧
     (validateLicense 10 [lInactive] dtoA).2 = [lInactive]) ∧
    ((validateLicense 10 [lExpired] dtoA).1.errorType = some .expired ∧
     (validateLicense 10 [lExpired] dtoA).1.valid = false ∧
     (validateLicense 10 [lExpired] dtoA).2 = [lExpired]) ∧
    ((validateLicense 10 [lBound] dtoA).1.valid = true ∧
     ∃ l', ((validateLicense 10 [lBound] dtoA).2).find?
         (fun x => x.licenseKey == dtoA.licenseKey) = some l' ∧
       l'.activeCount = lBound.activeCount) ∧
    ((validateLicense 10 [lBound] dtoB).1.errorType = some .max_devices_reached ∧
     (validateLicense 10 [lBound] dtoB).1.valid = false ∧
     (validateLicense 10 [lBound] dtoB).1.purchaseUrl =
        some "https://macman.dev/#pricing" ∧
     (validateLicense 10 [lBound] dtoB).2 = [lBound]) ∧
    ((validateLicense 10 [lRace] dtoA).1.valid = true ∧
     ∃ l', ((validateLicense 10 [lRace] dtoA).2).find?
         (fun x => x.licenseKey == dtoA.licenseKey) = some l' ∧
       l'.activeCount = lRace.activeCount + 1) :=
  ⟨C1_validate_order.1 10 [lRace] [] dtoBad (by decide),
   C1_validate_order.2.1 10 [] dtoA (by decide) (by decide),
   C1_validate_order.2.2.1 10 [lInactive] dtoA lInactive
     (by decide) (by decide) (by decide),
   C1_validate_order.2.2.2.1 10 [lExpired] dtoA lExpired 5
     (by decide) (by decide) (by decide) (by decide) (by decide),
   C1_validate_order.2.2.2.2.1 10 [lBound] dtoA lBound
     (by decide) (by decide) (by decide) (by decide) (by decide),
   C1_validate_order.2.2.2.2.2.1 10 [lBound] dtoB lBound
     (by decide) (by decide) (by decide) (by decide) (by decide) (by decide),
   C1_validate_order.2.2.2.2.2.2 10 [lRace] dtoA lRace
     (by decide) (by decide) (by decide) (by decide) (by decide) (by decide)⟩


/-- C3: re-validating an already-bound (license, machineId) pair is
idempotent with respect to device slots — it succeeds reporting the
pre-call active-device count, updates only `lastSeenAt` / `osVersion`
/ `appVersion` on that activation, creates no new activation, and
leaves the active-device count and the cached counter unchanged. -/
theorem C3_revalidation_idempotent (now : Nat) (db : List License)
    (d : ValidateLicenseDto) (l : License)
    (hk : isValidLicenseKeyFormat d.licenseKey = true)
    (hf : db.find? (fun l => l.licenseKey == d.licenseKey) = some l)
    (hact : l.isActive = true)
    (hexp : isPastExpiry now l.expiresAt = false)
    (hbound : ∃ a ∈ l.activeActivations, a.machineId = d.machineId) :
    (validateLicense now db d).1.valid = true ∧
    (validateLicense now db d).1.data = some
      { licenseKey := l.licenseKey, plan := l.plan, maxDevices := l.maxDevices,
        deviceCount := (l.activeCount : Int), isActive := l.isActive } ∧
    ∃ l', ((validateLicense now db d).2).find?
        (fun x => x.licenseKey == d.licenseKey) = some l' ∧
      l'.activations.length = l.activations.length ∧
      List.Forall₂ (fun a a' =>
        a'.machineId = a.machineId ∧ a'.isActive = a.isActive ∧
        a'.deviceName = a.deviceName ∧ a'.deactivatedAt = a.deactivatedAt)
        l.activations l'.activations ∧
      l'.activeCount = l.activeCount ∧
      l'.deviceCount = l.deviceCount := by
  obtain ⟨a, ha, ham⟩ := hbound
  have haact := activeActivations_isActive l a ha
  have hsome : (l.activeActivations.find?
      (fun a => a.machineId == d.machineId && a.isActive)).isSome :=
    List.find?_isSome.mpr ⟨a, ha, by simp [ham, haact]⟩
  obtain ⟨a', hfa⟩ := Option.isSome_iff_exists.mp hsome
  have h₂ := updateFirst_forall₂
    (fun (x y : Activation) =>
      y.machineId = x.machineId ∧ y.isActive = x.isActive ∧
      y.deviceName = x.deviceName ∧ y.deactivatedAt = x.deactivatedAt)
    (fun a => a.machineId == d.machineId && a.isActive)
    (refreshActivation now d)
    (fun x => ⟨rfl, rfl, rfl, rfl⟩) (fun x => ⟨rfl, rfl, rfl, rfl⟩) l.activations
  have h₃ := forall₂_filter_length (fun (a : Activation) => a.isActive)
    (fun (x y : Activation) =>
      y.machineId = x.machineId ∧ y.isActive = x.isActive ∧
      y.deviceName = x.deviceName ∧ y.deactivatedAt = x.deactivatedAt)
    (fun x y hxy => hxy.2.1) h₂
  have hred2 : (validateLicense now db d).2 =
      updateFirst (fun x => x.licenseKey == d.licenseKey)
        (refreshLicense now d) db := by
    simp [validateLicense, hk, hf, hact, hexp, hfa]
  refine ⟨?_, ?_, ?_⟩
  · simp [validateLicense, hk, hf, hact, hexp, hfa]
  · simp [validateLicense, hk, hf, hact, hexp, hfa, License.activeCount]
  · rw [hred2]
    refine ⟨refreshLicense now d l,
      find?_updateFirst (fun x => x.licenseKey == d.licenseKey)
        (refreshLicense now d) (fun x hx => hx) db l hf, ?_, ?_, ?_, rfl⟩
    · simpa [refreshLicense] using (List.Forall₂.length_eq h₂).symm
    · exact h₂
    · simpa [License.activeCount, License.activeActivations, refreshLicense]
        using h₃

/-- C3 witness: re-validating `MACHINE-A` against the fully-bound
single-device license succeeds without consuming a slot. -/
theorem C3_revalidation_idempotent_witness :
    (validateLicense 10 [lBound] dtoA).1.valid = true ∧
    (validateLicense 10 [lBound] dtoA).1.data = some
      { licenseKey := lBound.licenseKey, plan := lBound.plan,
        maxDevices := lBound.maxDevices,
        deviceCount := (lBound.activeCount : Int), isActive := lBound.isActive } ∧
    ∃ l', ((validateLicense 10 [lBound] dtoA).2).find?
        (fun x => x.licenseKey == dtoA.licenseKey) = some l' ∧
      l'.activations.length = lBound.activations.length ∧
      List.Forall₂ (fun a a' =>
        a'.machineId = a.machineId ∧ a'.isActive = a.isActive ∧
        a'.deviceName = a.deviceName ∧ a'.deactivatedAt = a.deactivatedAt)
        lBound.activations l'.activations ∧
      l'.activeCount = lBound.activeCount ∧
      l'.deviceCount = lBound.deviceCount :=
  C3_revalidation_idempotent 10 [lBound] dtoA lBound
    (by decide) (by decide) (by decide) (by decide) (by decide)

/-- C4: DeactivateDevice fails with NotFound exactly when no active
activation matches the machine id for that license (missing license,
missing device, or already-inactive device), changing no state; on
success it marks the located activation inactive with a deactivation
timestamp and decrements the cached device count by exactly one, and
the active-activation count drops by exactly one. -/
theorem C4_deactivateDevice :
    (∀ (now : Nat) (db : List License) (key machine : String),
      db.find? (fun l => l.licenseKey == key) = none →
      deactivateDevice now db key machine =
        (.error (.NotFound "License not found"), db)) ∧
    (∀ (now : Nat) (db : List License) (key machine : String) (l : License),
      db.find? (fun l => l.licenseKey == key) = some l →
      l.activations.find? (fun a => a.machineId == machine && a.isActive) = none →
      deactivateDevice now db key machine =
        (.error (.NotFound "Device activation not found"), db)) ∧
    (∀ (now : Nat) (db : List License) (key machine : String) (l : License)
        (a : Activation),
      db.find? (fun l => l.licenseKey == key) = some l →
      l.activations.find? (fun a => a.machineId == machine && a.isActive) = some a →
      (deactivateDevice now db key machine).1 = .ok () ∧
      ∃ l', ((deactivateDevice now db key machine).2).find?
          (fun x => x.licenseKey == key) = some l' ∧
        l'.deviceCount = l.deviceCount - 1 ∧
        l'.activeCount + 1 = l.activeCount ∧
        l'.activations = updateFirst
          (fun a => a.machineId == machine && a.isActive)
          (fun a => { a with isActive := false, deactivatedAt := some now })
          l.activations) := by
  refine ⟨?_, ?_, ?_⟩
  · intro now db key machine hf
    simp [deactivateDevice, hf]
  · intro now db key machine l hf hfa
    simp [deactivateDevice, hf, hfa]
  · intro now db key machine l a hf hfa
    have h1 : (deactivateDevice now db key machine).1 = .ok () := by
      simp [deactivateDevice, hf, hfa]
    have h2 : (deactivateDevice now db key machine).2 =
        updateFirst (fun x => x.licenseKey == key)
          (fun x =>
            { x with
                activations :=
                  (updateFirst (fun a => a.machineId == machine && a.isActive)
                    (fun a => { a with isActive := false, deactivatedAt := some now })
                    x.activations),
                deviceCount := l.deviceCount - 1 }) db := by
      simp [deactivateDevice, hf, hfa]
    refine ⟨h1, ?_⟩
    rw [h2]
    have hfind' := find?_updateFirst (fun x => x.licenseKey == key)
      (fun x =>
        { x with
            activations :=
              (updateFirst (fun a => a.machineId == machine && a.isActive)
                (fun a => { a with isActive := false, deactivatedAt := some now })
                x.activations),
            deviceCount := l.deviceCount - 1 }) (fun x hx => hx) db l hf
    refine ⟨_, hfind', rfl, ?_, rfl⟩
    have hcnt := updateFirst_filter_length_deactivate
      (fun a => a.machineId == machine && a.isActive)
      (fun (a : Activation) => a.isActive)
      (fun a => { a with isActive := false, deactivatedAt := some now })
      (fun x hx => by rw [Bool.and_eq_true] at hx; exact hx.2)
      (fun x => rfl) l.activations a hfa
    simpa [License.activeCount, License.activeActivations] using hcnt

/-- C4 witness: deactivating the bound machine succeeds, drops both
counters by one and stamps the row; a missing license and a license
without a matching active device both fail with NotFound and leave the
store untouched. -/
theorem C4_deactivateDevice_witness :
    (deactivateDevice 10 [] sampleKey "MACHINE-A" =
      (.error (.NotFound "License not found"), [])) ∧
    (deactivateDevice 10 [lRace] sampleKey "MACHINE-A" =
      (.error (.NotFound "Device activation not found"), [lRace])) ∧
    ((deactivateDevice 10 [lBound] sampleKey "MACHINE-A").1 = .ok () ∧
     ∃ l', ((deactivateDevice 10 [lBound] sampleKey "MACHINE-A").2).find?
         (fun x => x.licenseKey == sampleKey) = some l' ∧
       l'.deviceCount = lBound.deviceCount - 1 ∧
       l'.activeCount + 1 = lBound.activeCount ∧
       l'.activations = updateFirst
         (fun a => a.machineId == "MACHINE-A" && a.isActive)
         (fun a => { a with isActive := false, deactivatedAt := some (10 : Nat) })
         lBound.activations) :=
  ⟨C4_deactivateDevice.1 10 [] sampleKey "MACHINE-A" (by decide),
   C4_deactivateDevice.2.1 10 [lRace] sampleKey "MACHINE-A" lRace
     (by decide) (by decide),
   C4_deactivateDevice.2.2 10 [lBound] sampleKey "MACHINE-A" lBound actA
     (by decide) (by decide)⟩


/-! ## The device-quota property (sequential) -/

theorem seq_step (l : License) (now : Nat) (done : List String)
    (db : List License) (m : String)
    (hkey : isValidLicenseKeyFormat l.licenseKey = true)
    (hinv : seqInv l now done db) (hm : m ∉ done)
    (hlen : (done.length : Int) < l.maxDevices) :
    (validateLicense now db (basicDto l.licenseKey m)).1.valid = true ∧
    seqInv l now (done ++ [m])
      (validateLicense now db (basicDto l.licenseKey m)).2 := by
  obtain ⟨lc, rfl, hkeq, hactv, hexp, hmax, hacts⟩ := hinv
  have hk : isValidLicenseKeyFormat (basicDto l.licenseKey m).licenseKey = true :=
    hkey
  have hf : List.find?
      (fun x => x.licenseKey == (basicDto l.licenseKey m).licenseKey) [lc] =
      some lc :=
    List.find?_cons_of_pos _ (by simp [basicDto, hkeq])
  have hallact : ∀ a ∈ lc.activations, a.isActive = true := by
    intro a ha
    rw [hacts] at ha
    obtain ⟨mm, hmm, rfl⟩ := List.mem_map.mp ha
    rfl
  have hAA : lc.activeActivations = lc.activations := by
    unfold License.activeActivations
    exact List.filter_eq_self.mpr fun a ha => hallact a ha
  have hfa : lc.activeActivations.find?
      (fun a => a.machineId == (basicDto l.licenseKey m).machineId && a.isActive) =
      none := by
    rw [hAA]
    refine List.find?_eq_none.mpr fun a ha => ?_
    rw [hacts] at ha
    obtain ⟨mm, hmm, rfl⟩ := List.mem_map.mp ha
    have hne : mm ≠ m := fun hcontra => hm (hcontra ▸ hmm)
    simp [basicDto, newActivation, hne]
  have hcnt : (lc.activeActivations.filter (fun a => a.isActive)).length =
      done.length := by
    rw [activeActivations_filter, hAA, hacts, List.length_map]
  have hn : ¬ (((lc.activeActivations.filter (fun a => a.isActive)).length : Int) ≥
      lc.maxDevices) := by
    rw [hcnt, hmax]
    exact not_le.mpr hlen
  constructor
  · simp [validateLicense, hk, hf, hactv, hexp, isPastExpiry, hfa, hn]
  · have h2 : (validateLicense now [lc] (basicDto l.licenseKey m)).2 =
        updateFirst (fun x => x.licenseKey == (basicDto l.licenseKey m).licenseKey)
          (admitLicense now (basicDto l.licenseKey m)
            ((lc.activeActivations.filter (fun a => a.isActive)).length)) [lc] := by
      simp [validateLicense, hk, hf, hactv, hexp, isPastExpiry, hfa, hn]
    rw [h2]
    have hup : updateFirst
        (fun x => x.licenseKey == (basicDto l.licenseKey m).licenseKey)
        (admitLicense now (basicDto l.licenseKey m)
          ((lc.activeActivations.filter (fun a => a.isActive)).length)) [lc] =
        [admitLicense now (basicDto l.licenseKey m)
          ((lc.activeActivations.filter (fun a => a.isActive)).length) lc] := by
      rw [updateFirst_cons, if_pos (by simp [basicDto, hkeq])]
    refine ⟨admitLicense now (basicDto l.licenseKey m)
      ((lc.activeActivations.filter (fun a => a.isActive)).length) lc,
      hup, hkeq, hactv, hexp, hmax, ?_⟩
    simp [admitLicense, hacts]

theorem seq_full (l : License) (now : Nat) (done : List String)
    (db : List License) (m : String)
    (hkey : isValidLicenseKeyFormat l.licenseKey = true)
    (hinv : seqInv l now done db) (hm : m ∉ done)
    (hlen : l.maxDevices ≤ (done.length : Int)) :
    (validateLicense now db (basicDto l.licenseKey m)).1.errorType =
      some .max_devices_reached ∧
    (validateLicense now db (basicDto l.licenseKey m)).1.purchaseUrl =
      some "https://macman.dev/#pricing" ∧
    (validateLicense now db (basicDto l.licenseKey m)).2 = db := by
  obtain ⟨lc, rfl, hkeq, hactv, hexp, hmax, hacts⟩ := hinv
  have hk : isValidLicenseKeyFormat (basicDto l.licenseKey m).licenseKey = true :=
    hkey
  have hf : List.find?
      (fun x => x.licenseKey == (basicDto l.licenseKey m).licenseKey) [lc] =
      some lc :=
    List.find?_cons_of_pos _ (by simp [basicDto, hkeq])
  have hallact : ∀ a ∈ lc.activations, a.isActive = true := by
    intro a ha
    rw [hacts] at ha
    obtain ⟨mm, hmm, rfl⟩ := List.mem_map.mp ha
    rfl
  have hAA : lc.activeActivations = lc.activations := by
    unfold License.activeActivations
    exact List.filter_eq_self.mpr fun a ha => hallact a ha
  have hfa : lc.activeActivations.find?
      (fun a => a.machineId == (basicDto l.licenseKey m).machineId && a.isActive) =
      none := by
    rw [hAA]
    refine List.find?_eq_none.mpr fun a ha => ?_
    rw [hacts] at ha
    obtain ⟨mm, hmm, rfl⟩ := List.mem_map.mp ha
    have hne : mm ≠ m := fun hcontra => hm (hcontra ▸ hmm)
    simp [basicDto, newActivation, hne]
  have hcnt : (lc.activeActivations.filter (fun a => a.isActive)).length =
      done.length := by
    rw [activeActivations_filter, hAA, hacts, List.length_map]
  have hge : (((lc.activeActivations.filter (fun a => a.isActive)).length : Int) ≥
      lc.maxDevices) := by
    rw [hcnt, hmax]
    exact hlen
  refine ⟨?_, ?_, ?_⟩ <;>
    simp [validateLicense, hk, hf, hactv, hexp, isPastExpiry, hfa, hge]

theorem seq_run (l : License) (now : Nat)
    (hkey : isValidLicenseKeyFormat l.licenseKey = true) :
    ∀ (ms done : List String) (db : List License),
      seqInv l now done db → (done ++ ms).Nodup →
      ((done.length : Int) + ms.length ≤ l.maxDevices) →
      (∀ r ∈ (runValidations now l.licenseKey db ms).1, r.valid = true) ∧
      seqInv l now (done ++ ms) (runValidations now l.licenseKey db ms).2 := by
  intro ms
  induction ms with
  | nil =>
    intro done db hinv hnd hlen
    refine ⟨?_, ?_⟩
    · intro r hr
      simp [runValidations] at hr
    · simpa using hinv
  | cons m ms ih =>
    intro done db hinv hnd hlen
    have hdisj := (List.nodup_append.mp hnd).2.2
    have hm : m ∉ done := fun hc => hdisj hc (List.mem_cons_self m ms)
    have hlt : (done.length : Int) < l.maxDevices := by
      push_cast [List.length_cons] at hlen
      omega
    obtain ⟨hvalid, hinv'⟩ := seq_step l now done db m hkey hinv hm hlt
    have hnd' : ((done ++ [m]) ++ ms).Nodup := by
      rw [List.append_assoc]
      simpa using hnd
    have hlen' : (((done ++ [m]).length : Int) + ms.length ≤ l.maxDevices) := by
      push_cast [List.length_cons] at hlen
      push_cast [List.length_append, List.length_cons, List.length_nil]
      omega
    obtain ⟨hall, hinvF⟩ := ih (done ++ [m]) _ hinv' hnd' hlen'
    constructor
    · intro r hr
      simp only [runValidations] at hr
      rcases List.mem_cons.mp hr with h | h
      · exact h ▸ hvalid
      · exact hall r h
    · simp only [runValidations]
      simpa [List.append_assoc] using hinvF

/-- C2: on an active, unexpired license with no prior activations and
`maxDevices = N`, sequentially validating N distinct machine ids
succeeds every time, and validating an (N+1)-th distinct machine id
returns `max_devices_reached` with the purchase reference, leaving the
store (hence the set of active activations) unchanged. -/
theorem C2_device_quota (now : Nat) (l : License) (ms : List String)
    (mNext : String)
    (hkey : isValidLicenseKeyFormat l.licenseKey = true)
    (hact : l.isActive = true) (hexp : l.expiresAt = none)
    (hempty : l.activations = [])
    (hmax : l.maxDevices = (ms.length : Int))
    (hnodup : (mNext :: ms).Nodup) :
    (∀ r ∈ (runValidations now l.licenseKey [l] ms).1, r.valid = true) ∧
    (validateLicense now (runValidations now l.licenseKey [l] ms).2
        (basicDto l.licenseKey mNext)).1.errorType =
      some .max_devices_reached ∧
    (validateLicense now (runValidations now l.licenseKey [l] ms).2
        (basicDto l.licenseKey mNext)).1.purchaseUrl =
      some "https://macman.dev/#pricing" ∧
    (validateLicense now (runValidations now l.licenseKey [l] ms).2
        (basicDto l.licenseKey mNext)).2 =
      (runValidations now l.licenseKey [l] ms).2 := by
  obtain ⟨hmem, hndms⟩ := List.nodup_cons.mp hnodup
  have hinv0 : seqInv l now [] [l] :=
    ⟨l, rfl, rfl, hact, hexp, rfl, by simp [hempty]⟩
  have hrun := seq_run l now hkey ms [] [l] hinv0 (by simpa using hndms)
    (by rw [hmax]; simp)
  have hinvN : seqInv l now ms (runValidations now l.licenseKey [l] ms).2 := by
    simpa using hrun.2
  have hfull := seq_full l now ms (runValidations now l.licenseKey [l] ms).2
    mNext hkey hinvN hmem (le_of_eq hmax)
  exact ⟨hrun.1, hfull⟩

/-- C2 witness: a two-device license accepts `M1` and `M2` and rejects
`M3` with `max_devices_reached`, the store unchanged. -/
theorem C2_device_quota_witness :
    (∀ r ∈ (runValidations 0 lTwo.licenseKey [lTwo] ["M1", "M2"]).1,
      r.valid = true) ∧
    (validateLicense 0 (runValidations 0 lTwo.licenseKey [lTwo] ["M1", "M2"]).2
        (basicDto lTwo.licenseKey "M3")).1.errorType =
      some .max_devices_reached ∧
    (validateLicense 0 (runValidations 0 lTwo.licenseKey [lTwo] ["M1", "M2"]).2
        (basicDto lTwo.licenseKey "M3")).1.purchaseUrl =
      some "https://macman.dev/#pricing" ∧
    (validateLicense 0 (runValidations 0 lTwo.licenseKey [lTwo] ["M1", "M2"]).2
        (basicDto lTwo.licenseKey "M3")).2 =
      (runValidations 0 lTwo.licenseKey [lTwo] ["M1", "M2"]).2 :=
  C2_device_quota 0 lTwo ["M1", "M2"] "M3"
    (by decide) (by decide) (by decide) (by decide) (by decide) (by decide)


/-! ## The admission race -/

/-- Decomposition soundness: whenever the read phase admits with an
observed count, the full sequential `validateLicense` call succeeds
and its writes are exactly the write phase applied to that count. -/
theorem validateLicense_eq_admission (now : Nat) (db : List License)
    (d : ValidateLicenseDto) (c : Nat)
    (h : admissionCheck now db d = some c) :
    (validateLicense now db d).1.valid = true ∧
    (validateLicense now db d).2 = admissionWrite now db d c := by
  by_cases hk : isValidLicenseKeyFormat d.licenseKey = true
  case neg =>
    have hk' : isValidLicenseKeyFormat d.licenseKey = false := by simpa using hk
    simp [admissionCheck, hk'] at h
  cases hf : db.find? (fun l => l.licenseKey == d.licenseKey) with
  | none => simp [admissionCheck, hk, hf] at h
  | some l =>
    by_cases hact : l.isActive = true
    case neg =>
      have hact' : l.isActive = false := by simpa using hact
      simp [admissionCheck, hk, hf, hact'] at h
    by_cases hpe : isPastExpiry now l.expiresAt = true
    case pos => simp [admissionCheck, hk, hf, hact, hpe] at h
    have hpe' : isPastExpiry now l.expiresAt = false := by simpa using hpe
    cases hfa : l.activeActivations.find?
        (fun a => a.machineId == d.machineId && a.isActive) with
    | some a => simp [admissionCheck, hk, hf, hact, hpe', hfa] at h
    | none =>
      by_cases hge : ((l.activeActivations.filter (fun a => a.isActive)).length : Int) ≥
          l.maxDevices
      case pos => simp [admissionCheck, hk, hf, hact, hpe', hfa, hge] at h
      have hc : (l.activeActivations.filter (fun a => a.isActive)).length = c := by
        simpa [admissionCheck, hk, hf, hact, hpe', hfa, hge] using h
      subst hc
      constructor
      · simp [validateLicense, hk, hf, hact, hpe', hfa, hge]
      · simp [validateLicense, admissionWrite, hk, hf, hact, hpe', hfa, hge]

/-- C8: the device-slot admission of `validateLicense` is an unguarded
read-then-write.  Two concurrent validations of different machines
against a one-device license can both pass the read phase on the same
snapshot (both observing count 0 below `maxDevices = 1`), and applying
both write phases leaves the license with two active activations,
exceeding the quota.  The claimed conditional-increment/serializable
admission does not hold of this code. -/
theorem C8_admission_race :
    admissionCheck 0 [lRace] dtoA = some 0 ∧
    admissionCheck 0 [lRace] dtoB = some 0 ∧
    (admissionWrite 0 (admissionWrite 0 [lRace] dtoA 0) dtoB 0).map
        License.activeCount = [2] ∧
    lRace.maxDevices = 1 := by
  decide

end Macman
